import Mathlib

/-!
Verification of the sentry-selfhosted-mcp tool-dispatch layer (src/index.ts):
a shallow embedding of the argument validators, the identifier extractor
(`getIssueId`), the static tool registry, the call-tool dispatcher and the
error classifier, together with theorems about the claims of the spec.
-/

namespace SentryMcp

/-- A JSON value, modelling the untyped payloads flowing through the server
(tool arguments and upstream response bodies). -/
inductive Json where
  | null : Json
  | bool : Bool → Json
  | num : Int → Json
  | str : String → Json
  | arr : List Json → Json
  | obj : List (String × Json) → Json

/-- Property access `j.key` in JavaScript: `some v` when `j` is an object with
field `key`, `none` (undefined) otherwise. -/
def Json.getField : Json → String → Option Json
  | .obj fields, key =>
      match fields.find? (fun p => p.1 == key) with
      | some p => some p.2
      | none => none
  | _, _ => none

/-- `typeof v === 'object'` in JavaScript: true for objects, arrays and null. -/
def jsTypeofObject : Json → Bool
  | .obj _ => true
  | .arr _ => true
  | .null => true
  | _ => false

/-- Whether the value is the JSON null (the `args !== null` test). -/
def Json.isNull : Json → Bool
  | .null => true
  | _ => false

/-- String escaping inside the serializer (models the quoting done by the
runtime JSON serializer; only quote and backslash handled). -/
def escapeString (s : String) : String :=
  s.foldl (fun acc c =>
    if c == '"' then acc ++ "\\\""
    else if c == '\\' then acc ++ "\\\\"
    else acc.push c) ""

mutual
/-- Serialization of a JSON value, modelling the runtime `JSON.stringify`
(an external library function; indentation is not modelled). -/
def Json.stringify : Json → String
  | .null => "null"
  | .bool true => "true"
  | .bool false => "false"
  | .num n => toString n
  | .str s => "\"" ++ escapeString s ++ "\""
  | .arr elems => "[" ++ stringifyList elems ++ "]"
  | .obj fields => "\x7b" ++ stringifyFields fields ++ "\x7d"

/-- Serialization of the elements of a JSON array, comma separated. -/
def stringifyList : List Json → String
  | [] => ""
  | [x] => Json.stringify x
  | x :: xs => Json.stringify x ++ "," ++ stringifyList xs

/-- Serialization of the fields of a JSON object, comma separated. -/
def stringifyFields : List (String × Json) → String
  | [] => ""
  | [(k, v)] => "\"" ++ escapeString k ++ "\":" ++ Json.stringify v
  | (k, v) :: fs =>
      "\"" ++ escapeString k ++ "\":" ++ Json.stringify v ++ "," ++ stringifyFields fs
end

/-- JavaScript truthiness of a string value: truthy iff nonempty. -/
def jsTruthyStr (s : String) : Bool := s ≠ ""

/-- Validator for `get_sentry_issue` arguments (`isValidGetIssueArgs`):
an object (not null) with a string field `issue_id_or_url`.  The argument
payload is `Option Json`, `none` modelling an undefined arguments object. -/
def isValidGetIssueArgs (args : Option Json) : Bool :=
  match args with
  | some j =>
      jsTypeofObject j && !j.isNull &&
      (match j.getField "issue_id_or_url" with
       | some (.str _) => true
       | _ => false)
  | none => false

/-- Validator for `list_sentry_issues` arguments (`isValidListIssuesArgs`):
an object with a string `project_slug`, and `query` / `status` each either
absent or a string.  Note: the source performs no enum check on `status`. -/
def isValidListIssuesArgs (args : Option Json) : Bool :=
  match args with
  | some j =>
      jsTypeofObject j && !j.isNull &&
      (match j.getField "project_slug" with
       | some (.str _) => true
       | _ => false) &&
      (match j.getField "query" with
       | none => true
       | some (.str _) => true
       | some _ => false) &&
      (match j.getField "status" with
       | none => true
       | some (.str _) => true
       | some _ => false)
  | none => false

/-- Validator for `get_sentry_event_details` arguments (`isValidGetEventArgs`):
an object with string fields `project_slug` and `event_id`. -/
def isValidGetEventArgs (args : Option Json) : Bool :=
  match args with
  | some j =>
      jsTypeofObject j && !j.isNull &&
      (match j.getField "project_slug" with
       | some (.str _) => true
       | _ => false) &&
      (match j.getField "event_id" with
       | some (.str _) => true
       | _ => false)
  | none => false

/-- Validator for `update_sentry_issue_status` arguments
(`isValidUpdateIssueArgs`): an object with a string `issue_id` and a `status`
string belonging to the enum. -/
def isValidUpdateIssueArgs (args : Option Json) : Bool :=
  match args with
  | some j =>
      jsTypeofObject j && !j.isNull &&
      (match j.getField "issue_id" with
       | some (.str _) => true
       | _ => false) &&
      (match j.getField "status" with
       | some (.str s) => ["resolved", "ignored", "unresolved"].contains s
       | _ => false)
  | none => false

/-- Validator for `create_sentry_issue_comment` arguments
(`isValidCreateCommentArgs`): an object with string fields `issue_id` and
`comment_text`. -/
def isValidCreateCommentArgs (args : Option Json) : Bool :=
  match args with
  | some j =>
      jsTypeofObject j && !j.isNull &&
      (match j.getField "issue_id" with
       | some (.str _) => true
       | _ => false) &&
      (match j.getField "comment_text" with
       | some (.str _) => true
       | _ => false)
  | none => false

/-- The result of the runtime URL constructor, restricted to the one component
the source reads: the path. -/
structure Url where
  pathname : String

/-- The test `/^\d+$/.test s`: nonempty and all decimal digits. -/
def testDigits (s : String) : Bool := !s.data.isEmpty && s.data.all Char.isDigit

/-- Helper for `splitSlash`: walks the character list accumulating the current
segment (reversed). -/
def splitSlashAux : List Char → List Char → List String
  | [], acc => [String.mk acc.reverse]
  | c :: cs, acc =>
      if c = '/' then String.mk acc.reverse :: splitSlashAux cs []
      else splitSlashAux cs (c :: acc)

/-- The JavaScript `pathname.split('/')`: splits on every slash, keeping empty
segments (so a leading slash yields a leading empty segment). -/
def splitSlash (s : String) : List String := splitSlashAux s.data []

/-- The identifier extractor `getIssueId`, parameterised by the runtime URL
constructor `parseUrl` (`none` models `new URL` throwing).  On a parse success
the path is split on `/`, the first segment equal to `"issues"` is located,
and the following segment is returned when it is all digits; on a parse
failure the raw input is returned when it is all digits. -/
def getIssueId (parseUrl : String → Option Url) (input : String) : Option String :=
  match parseUrl input with
  | some url =>
      let pathParts := splitSlash url.pathname
      match pathParts.findIdx? (fun seg => seg == "issues") with
      | some issuesIndex =>
          if issuesIndex + 1 < pathParts.length then
            let potentialId := pathParts.getD (issuesIndex + 1) ""
            if testDigits potentialId then some potentialId else none
          else none
      | none => none
  | none => if testDigits input then some input else none

/-- A property schema inside a tool input schema: field name, declared type,
declared enum values (empty when none) and description. -/
structure PropertySchema where
  name : String
  type : String
  enumVals : List String
  description : String

/-- A tool input schema: the declared type, the properties and the list of
required field names. -/
structure InputSchema where
  type : String
  properties : List PropertySchema
  required : List String

/-- A tool definition in the registry: name, description and input schema. -/
structure ToolDefinition where
  name : String
  description : String
  inputSchema : InputSchema

/-- The static tool registry returned by the ListTools handler, transcribed
from the source. -/
def toolRegistry : List ToolDefinition := [
  ⟨"get_sentry_issue",
   "Retrieve details for a specific Sentry issue by ID or URL, including the stacktrace from the latest event.",
   ⟨"object",
    [⟨"issue_id_or_url", "string", [],
      "Sentry issue ID or full issue URL. Issue ID is a number e.g: 123456"⟩],
    ["issue_id_or_url"]⟩⟩,
  ⟨"list_sentry_projects",
   "List all projects within the configured Sentry organization.",
   ⟨"object", [], []⟩⟩,
  ⟨"list_sentry_issues",
   "List issues for a specific project, optionally filtering by query or status.",
   ⟨"object",
    [⟨"project_slug", "string", [], "The slug of the project (e.g., \"my-web-app\")."⟩,
     ⟨"query", "string", [],
      "Optional Sentry search query (e.g., \"is:unresolved environment:production\")."⟩,
     ⟨"status", "string", ["resolved", "unresolved", "ignored"],
      "Optional issue status filter."⟩],
    ["project_slug"]⟩⟩,
  ⟨"get_sentry_event_details",
   "Retrieve details for a specific event ID within a project.",
   ⟨"object",
    [⟨"project_slug", "string", [], "The slug of the project."⟩,
     ⟨"event_id", "string", [], "The ID of the event."⟩],
    ["project_slug", "event_id"]⟩⟩]

/-- Protocol error codes used by the handler. -/
inductive ErrorCode where
  | InvalidParams
  | MethodNotFound

/-- A protocol-level error (`McpError`): code plus message. -/
structure McpError where
  code : ErrorCode
  message : String

/-- One text content item of a tool result. -/
structure TextContent where
  text : String

/-- The uniform tool result shape.  The source omits `isError` on success,
which JavaScript callers read as falsy; that is modelled as `isError = false`. -/
structure ToolResult where
  content : List TextContent
  isError : Bool

/-- An upstream HTTP response attached to a transport failure. -/
structure HttpResponse where
  status : Nat
  data : Json

/-- An upstream transport failure (an axios error): transport message and the
received response when one exists. -/
structure AxiosFailure where
  message : String
  response : Option HttpResponse

/-- An upstream GET request: the path and the optional `query` parameter
(`none` when the params object carries no query key). -/
structure GetRequest where
  path : String
  queryParam : Option String

/-- The upstream HTTP client, modelled as an oracle from request to either a
response body or a transport failure. -/
def Upstream : Type := GetRequest → Except AxiosFailure Json

/-- A value thrown inside the dispatch `try` block: an axios failure, a
protocol error, another `Error` instance, or a non-Error value. -/
inductive Thrown where
  | axiosErr (message : String) (response : Option HttpResponse)
  | mcpErr (e : McpError)
  | jsErr (message : String)
  | nonErrorValue

/-- Reads a string field out of the (already validated) arguments object. -/
def getStrField (args : Option Json) (key : String) : String :=
  match args with
  | some j =>
      match j.getField key with
      | some (.str s) => s
      | _ => ""
  | none => ""

/-- Reads an optional string field out of the arguments object. -/
def getOptStrField (args : Option Json) (key : String) : Option String :=
  match args with
  | some j =>
      match j.getField key with
      | some (.str s) => some s
      | _ => none
  | none => none

/-- The object spread plus assignment `\x7b...issueData, latest_event: v\x7d`:
for an object, the field is overwritten in place when present and appended
otherwise; for non-object data the spread contributes no fields. -/
def Json.setField (j : Json) (key : String) (v : Json) : Json :=
  match j with
  | .obj fields =>
      if fields.any (fun p => p.1 == key) then
        .obj (fields.map (fun p => if p.1 == key then (p.1, v) else p))
      else
        .obj (fields ++ [(key, v)])
  | _ => .obj [(key, v)]

/-- The query-parameter composition of the `list_sentry_issues` branch:
`if (args.query) params.query = args.query;` then
`if (args.status) params.query = (params.query ? params.query + " " : "") +
"is:" + args.status`.  Returns the final `query` parameter, `none` when the
params object never receives one. -/
def buildListIssuesQuery (query status : Option String) : Option String :=
  let params : Option String :=
    match query with
    | some q => if jsTruthyStr q then some q else none
    | none => none
  match status with
  | some st =>
      if jsTruthyStr st then
        some ((match params with
               | some q => if jsTruthyStr q then q ++ " " else ""
               | none => "") ++ "is:" ++ st)
      else params
  | none => params

/-- The `try` block of the CallTool handler: routes on the tool name, validates
arguments (throwing `InvalidParams`), performs the upstream call(s) and shapes
the success result; unknown names throw `MethodNotFound`. -/
def dispatchTry (orgSlug : String) (parseUrl : String → Option Url)
    (upstream : Upstream) (toolName : String) (args : Option Json) :
    Except Thrown ToolResult :=
  if toolName = "get_sentry_issue" then
    if !isValidGetIssueArgs args then
      .error (.mcpErr ⟨.InvalidParams, "Invalid args for get_sentry_issue."⟩)
    else
      match getIssueId parseUrl (getStrField args "issue_id_or_url") with
      | none =>
          .error (.mcpErr ⟨.InvalidParams,
            "Could not extract issue ID from: " ++ getStrField args "issue_id_or_url"⟩)
      | some issueId =>
          match upstream ⟨"issues/" ++ issueId ++ "/", none⟩ with
          | .error e => .error (.axiosErr e.message e.response)
          | .ok issueData =>
              let combined := issueData.setField "latest_event" Json.null
              let combined :=
                match upstream ⟨"organizations/" ++ orgSlug ++ "/issues/" ++ issueId
                                 ++ "/events/latest/", none⟩ with
                | .ok eventData => combined.setField "latest_event" eventData
                | .error _ => combined
              .ok ⟨[⟨combined.stringify⟩], false⟩
  else if toolName = "list_sentry_projects" then
    match upstream ⟨"organizations/" ++ orgSlug ++ "/projects/", none⟩ with
    | .error e => .error (.axiosErr e.message e.response)
    | .ok data => .ok ⟨[⟨data.stringify⟩], false⟩
  else if toolName = "list_sentry_issues" then
    if !isValidListIssuesArgs args then
      .error (.mcpErr ⟨.InvalidParams, "Invalid args for list_sentry_issues."⟩)
    else
      let params := buildListIssuesQuery (getOptStrField args "query")
        (getOptStrField args "status")
      match upstream ⟨"projects/" ++ orgSlug ++ "/" ++ getStrField args "project_slug"
                       ++ "/issues/", params⟩ with
      | .error e => .error (.axiosErr e.message e.response)
      | .ok data => .ok ⟨[⟨data.stringify⟩], false⟩
  else if toolName = "get_sentry_event_details" then
    if !isValidGetEventArgs args then
      .error (.mcpErr ⟨.InvalidParams, "Invalid args for get_sentry_event_details."⟩)
    else
      match upstream ⟨"projects/" ++ orgSlug ++ "/" ++ getStrField args "project_slug"
                       ++ "/events/" ++ getStrField args "event_id" ++ "/", none⟩ with
      | .error e => .error (.axiosErr e.message e.response)
      | .ok data => .ok ⟨[⟨data.stringify⟩], false⟩
  else
    .error (.mcpErr ⟨.MethodNotFound, "Unknown tool: " ++ toolName⟩)

/-- The `catch` block of the CallTool handler: axios failures become a
`ToolResult` with `isError = true` and a classified message (permission denied
for 401/403, not found for 404, otherwise the composed generic message);
protocol errors are re-thrown; other `Error`s use their own message; anything
else keeps the generic fallback message. -/
def classifyError (toolName : String) (e : Thrown) : Except McpError ToolResult :=
  match e with
  | .axiosErr msg response =>
      let m1 := "Sentry API error for " ++ toolName ++ ": " ++ msg
      let finalMessage :=
        match response with
        | none => m1
        | some r =>
            let m2 := m1 ++ " Status: " ++ toString r.status ++ ". Response: "
              ++ r.data.stringify
            if 400 ≤ r.status ∧ r.status < 500 then
              if r.status = 401 ∨ r.status = 403 then
                "Sentry API permission denied for " ++ toolName
                  ++ ". Check auth token validity and permissions."
              else if r.status = 404 then
                "Sentry resource not found for " ++ toolName ++ ". Check IDs/slugs."
              else m2
            else m2
      .ok ⟨[⟨finalMessage⟩], true⟩
  | .mcpErr me => .error me
  | .jsErr msg => .ok ⟨[⟨msg⟩], true⟩
  | .nonErrorValue => .ok ⟨[⟨"Failed to execute tool " ++ toolName ++ "."⟩], true⟩

/-- The complete CallTool handler: the `try` block, with every thrown value
routed through the error classifier. -/
def handleCallTool (orgSlug : String) (parseUrl : String → Option Url)
    (upstream : Upstream) (toolName : String) (args : Option Json) :
    Except McpError ToolResult :=
  match dispatchTry orgSlug parseUrl upstream toolName args with
  | .ok result => .ok result
  | .error e => classifyError toolName e

/-- A concrete URL constructor used to instantiate the parameterised theorems:
accepts exactly the strings starting with the scheme-and-host prefix
`http://x/` and takes the remainder (with its leading slash) as the path. -/
def simpleParseUrl (s : String) : Option Url :=
  match s.data with
  | 'h' :: 't' :: 't' :: 'p' :: ':' :: '/' :: '/' :: 'x' :: '/' :: rest =>
      some ⟨String.mk ('/' :: rest)⟩
  | _ => none

/-- A concrete upstream oracle on which every request fails with a bare
transport error. -/
def emptyUpstream : Upstream := fun _ => .error ⟨"network unreachable", none⟩

/-- A concrete primary issue payload used in witnesses. -/
def witnessIssueData : Json :=
  Json.obj [("id", Json.str "123"), ("title", Json.str "boom")]

/-- A concrete upstream oracle on which the primary issue fetch succeeds and
every other request (in particular the latest-event fetch) fails. -/
def witnessUpstream : Upstream := fun r =>
  if r.path = "issues/123/" then .ok witnessIssueData
  else .error ⟨"Request failed with status code 500", none⟩

/-- Claim C2: the discovery catalog is claimed to contain exactly the six
documented tools; the registry in the code enumerates only four tool names and
omits `update_sentry_issue_status` and `create_sentry_issue_comment`. -/
theorem tool_registry_omits_mutation_tools :
    toolRegistry.map ToolDefinition.name =
      ["get_sentry_issue", "list_sentry_projects", "list_sentry_issues",
       "get_sentry_event_details"] ∧
    "update_sentry_issue_status" ∉ toolRegistry.map ToolDefinition.name ∧
    "create_sentry_issue_comment" ∉ toolRegistry.map ToolDefinition.name :=
  ⟨rfl, by decide, by decide⟩

/-- Claim C1: invoking the dispatcher on `update_sentry_issue_status` or
`create_sentry_issue_comment` with arguments missing a required field is
claimed to raise `InvalidParams`; the dispatcher has no branch for these two
tools and raises `MethodNotFound` instead (their validators, which would
reject the payload, exist but are never called). -/
theorem mutation_tools_not_dispatched :
    handleCallTool "org" (fun _ => none) emptyUpstream "update_sentry_issue_status"
        (some (Json.obj [("issue_id", Json.str "1")])) =
      .error ⟨.MethodNotFound, "Unknown tool: update_sentry_issue_status"⟩ ∧
    handleCallTool "org" (fun _ => none) emptyUpstream "create_sentry_issue_comment"
        (some (Json.obj [("issue_id", Json.str "1")])) =
      .error ⟨.MethodNotFound, "Unknown tool: create_sentry_issue_comment"⟩ ∧
    isValidUpdateIssueArgs (some (Json.obj [("issue_id", Json.str "1")])) = false ∧
    isValidCreateCommentArgs (some (Json.obj [("issue_id", Json.str "1")])) = false :=
  ⟨rfl, rfl, rfl, rfl⟩

/-- Claim C6: `list_sentry_issues` composes the upstream query parameter by
joining the free-text query and the status predicate with a single space;
in particular `query="is:unresolved"`, `status="ignored"` gives
`"is:unresolved is:ignored"`, and no query with `status="resolved"` gives
`"is:resolved"`. -/
theorem list_issues_query_composition :
    (∀ q st : String, q ≠ "" → st ≠ "" →
      buildListIssuesQuery (some q) (some st) = some (q ++ " " ++ "is:" ++ st)) ∧
    buildListIssuesQuery (some "is:unresolved") (some "ignored") =
      some "is:unresolved is:ignored" ∧
    buildListIssuesQuery none (some "resolved") = some "is:resolved" := by
  refine ⟨?_, rfl, rfl⟩
  intro q st hq hst
  simp [buildListIssuesQuery, jsTruthyStr, hq, hst]

/-- Witness for C6: the general composition applied at concrete strings. -/
theorem list_issues_query_composition_witness :
    buildListIssuesQuery (some "a") (some "b") = some ("a" ++ " " ++ "is:" ++ "b") :=
  list_issues_query_composition.1 "a" "b" (by decide) (by decide)

/-- Claim C8 (counterexample): the `list_sentry_issues` validator is claimed
to reject any payload whose status is a string outside the enum; the validator
accepts `status = "bogus"`, which is outside the enum. -/
theorem list_issues_validator_accepts_any_status :
    isValidListIssuesArgs (some (Json.obj
      [("project_slug", Json.str "p"), ("status", Json.str "bogus")])) = true ∧
    "bogus" ∉ ["resolved", "unresolved", "ignored"] :=
  ⟨rfl, by decide⟩

/-- Claim C8 (amended): the `list_sentry_issues` validator accepts a payload
with a string `project_slug` and any string `status` (the enum is not
enforced); it rejects payloads missing `project_slug` and payloads whose
`query` or `status` is present with a non-string value. -/
theorem isValidListIssuesArgs_shape (slug st : String) :
    isValidListIssuesArgs (some (Json.obj [("project_slug", Json.str slug),
      ("status", Json.str st)])) = true ∧
    isValidListIssuesArgs (some (Json.obj [("project_slug", Json.str slug),
      ("query", Json.str st)])) = true ∧
    isValidListIssuesArgs (some (Json.obj [("status", Json.str st)])) = false ∧
    isValidListIssuesArgs (some (Json.obj [("project_slug", Json.str slug),
      ("query", Json.num 3)])) = false ∧
    isValidListIssuesArgs (some (Json.obj [("project_slug", Json.str slug),
      ("status", Json.num 3)])) = false ∧
    isValidListIssuesArgs none = false :=
  ⟨rfl, rfl, rfl, rfl, rfl, rfl⟩

/-- Claim C9: in `list_sentry_issues` an empty-string `query` or `status` is
treated exactly like an absent field: with `query=""` and a nonempty status
the composed parameter is `is:<status>` with no leading space, and with both
empty no query parameter is sent at all. -/
theorem list_issues_empty_string_like_absent (stOpt qOpt : Option String)
    (st : String) :
    buildListIssuesQuery (some "") stOpt = buildListIssuesQuery none stOpt ∧
    buildListIssuesQuery qOpt (some "") = buildListIssuesQuery qOpt none ∧
    (st ≠ "" → buildListIssuesQuery (some "") (some st) = some ("is:" ++ st)) ∧
    buildListIssuesQuery (some "") (some "") = none := by
  refine ⟨?_, ?_, ?_, rfl⟩
  · cases stOpt <;> simp [buildListIssuesQuery, jsTruthyStr]
  · cases qOpt <;> simp [buildListIssuesQuery, jsTruthyStr]
  · intro h
    simp [buildListIssuesQuery, jsTruthyStr, h]

/-- Witness for C9: the empty-query composition applied at a concrete status. -/
theorem list_issues_empty_string_like_absent_witness :
    buildListIssuesQuery (some "") (some "resolved") = some ("is:" ++ "resolved") :=
  (list_issues_empty_string_like_absent (some "resolved") none "resolved").2.2.1
    (by decide)

/-- Claim C7 (counterexample): the extractor is claimed to return the digits
whenever the parsed path contains an `issues` segment immediately followed by
an all-digit segment; on a URL whose first `issues` segment is followed by a
non-digit segment and whose second `issues` segment is followed by digits, it
returns no-match. -/
theorem getIssueId_later_issues_segment_cex :
    simpleParseUrl "http://x/issues/abc/issues/123" =
      some ⟨"/issues/abc/issues/123"⟩ ∧
    splitSlash "/issues/abc/issues/123" = ["", "issues", "abc", "issues", "123"] ∧
    testDigits "123" = true ∧
    getIssueId simpleParseUrl "http://x/issues/abc/issues/123" = none :=
  ⟨rfl, rfl, rfl, rfl⟩

/-- Claim C7 (amended): for any URL constructor that fails on all-digit
strings (which carry no scheme), the extractor returns nonempty all-digit
inputs unchanged; when parsing succeeds it returns the segment following the
first `issues` segment exactly when that segment is all digits; with no
`issues` segment it returns no-match; and non-URL non-digit inputs return
no-match. -/
theorem getIssueId_extraction (parseUrl : String → Option Url) :
    (∀ input : String,
      (∀ s : String, s.data.all Char.isDigit = true → parseUrl s = none) →
      testDigits input = true → getIssueId parseUrl input = some input) ∧
    (∀ (input : String) (url : Url) (i : Nat), parseUrl input = some url →
      (splitSlash url.pathname).findIdx? (fun seg => seg == "issues") = some i →
      testDigits ((splitSlash url.pathname).getD (i + 1) "") = true →
      getIssueId parseUrl input =
        some ((splitSlash url.pathname).getD (i + 1) "")) ∧
    (∀ (input : String) (url : Url), parseUrl input = some url →
      (splitSlash url.pathname).findIdx? (fun seg => seg == "issues") = none →
      getIssueId parseUrl input = none) ∧
    (∀ input : String, parseUrl input = none → testDigits input = false →
      getIssueId parseUrl input = none) := by
  refine ⟨?_, ?_, ?_, ?_⟩
  · intro input hp h
    have hall : input.data.all Char.isDigit = true := by
      have h2 := h
      simp only [testDigits, Bool.and_eq_true] at h2
      exact h2.2
    simp [getIssueId, hp input hall, h]
  · intro input url i hparse hfind htd
    have hlen : i + 1 < (splitSlash url.pathname).length := by
      by_contra hc
      push_neg at hc
      rw [List.getD_eq_default _ _ hc] at htd
      exact absurd htd (by decide)
    rw [List.getD_eq_getElem _ _ hlen] at htd
    simp [getIssueId, hparse, hfind, hlen, htd]
  · intro input url hparse hfind
    simp [getIssueId, hparse, hfind]
  · intro input hparse h
    simp [getIssueId, hparse, h]

/-- Witness for C7: each extraction case applied at a concrete input. -/
theorem getIssueId_extraction_witness :
    getIssueId (fun _ => none) "123" = some "123" ∧
    getIssueId simpleParseUrl "http://x/issues/456/rest" = some "456" ∧
    getIssueId simpleParseUrl "http://x/noissue/7" = none ∧
    getIssueId (fun _ => none) "12a" = none :=
  ⟨(getIssueId_extraction (fun _ => none)).1 "123" (fun _ _ => rfl) rfl,
   (getIssueId_extraction simpleParseUrl).2.1 "http://x/issues/456/rest"
     ⟨"/issues/456/rest"⟩ 1 rfl rfl rfl,
   (getIssueId_extraction simpleParseUrl).2.2.1 "http://x/noissue/7"
     ⟨"/noissue/7"⟩ rfl rfl,
   (getIssueId_extraction (fun _ => none)).2.2.2 "12a" rfl rfl⟩

/-- Claim C10: when the input parses as a URL, only the first `issues` path
segment is consulted: if the segment after the first occurrence is not all
digits the extractor returns no-match, whatever follows later, and the
raw-digit fallback is never applied. -/
theorem getIssueId_first_issues_only (parseUrl : String → Option Url)
    (input : String) (url : Url) (i : Nat)
    (hparse : parseUrl input = some url)
    (hfind : (splitSlash url.pathname).findIdx? (fun seg => seg == "issues") =
      some i)
    (hbad : testDigits ((splitSlash url.pathname).getD (i + 1) "") = false) :
    getIssueId parseUrl input = none := by
  by_cases hlen : i + 1 < (splitSlash url.pathname).length
  · rw [List.getD_eq_getElem _ _ hlen] at hbad
    simp [getIssueId, hparse, hfind, hlen, hbad]
  · simp [getIssueId, hparse, hfind, hlen]

/-- Witness for C10: a URL whose first `issues` segment is followed by a
non-digit segment, while a later one is followed by digits. -/
theorem getIssueId_first_issues_only_witness :
    getIssueId simpleParseUrl "http://x/issues/a7/issues/99" = none :=
  getIssueId_first_issues_only simpleParseUrl "http://x/issues/a7/issues/99"
    ⟨"/issues/a7/issues/99"⟩ 1 rfl rfl rfl

/-- Claim C3: when the primary issue fetch of `get_sentry_issue` succeeds and
the secondary latest-event fetch fails, the handler returns a non-error
`ToolResult` whose text is the primary payload with `latest_event` set to
null; the secondary failure is not surfaced. -/
theorem get_issue_secondary_failure_nonfatal (orgSlug : String)
    (parseUrl : String → Option Url) (upstream : Upstream) (args : Option Json)
    (issueId : String) (issueData : Json) (failure : AxiosFailure)
    (hv : isValidGetIssueArgs args = true)
    (hid : getIssueId parseUrl (getStrField args "issue_id_or_url") = some issueId)
    (hprimary : upstream ⟨"issues/" ++ issueId ++ "/", none⟩ = .ok issueData)
    (hsecondary : upstream ⟨"organizations/" ++ orgSlug ++ "/issues/" ++ issueId
        ++ "/events/latest/", none⟩ = .error failure) :
    handleCallTool orgSlug parseUrl upstream "get_sentry_issue" args =
      .ok ⟨[⟨(issueData.setField "latest_event" Json.null).stringify⟩], false⟩ := by
  unfold handleCallTool dispatchTry
  simp [hv, hid, hprimary, hsecondary]

/-- Witness for C3: a concrete oracle on which the issue fetch succeeds and
the latest-event fetch fails. -/
theorem get_issue_secondary_failure_nonfatal_witness :
    handleCallTool "org" (fun _ => none) witnessUpstream "get_sentry_issue"
        (some (Json.obj [("issue_id_or_url", Json.str "123")])) =
      .ok ⟨[⟨(witnessIssueData.setField "latest_event" Json.null).stringify⟩],
        false⟩ :=
  get_issue_secondary_failure_nonfatal "org" (fun _ => none) witnessUpstream
    (some (Json.obj [("issue_id_or_url", Json.str "123")])) "123"
    witnessIssueData ⟨"Request failed with status code 500", none⟩ rfl rfl rfl rfl

/-- Claim C4: on an upstream failure carrying a response, the classifier
produces an error `ToolResult` whose sole message is the permission-denied
message for status 401 or 403, the not-found message for status 404, and
otherwise the composed generic message with tool name, transport message,
status and body. -/
theorem classify_http_status_messages (toolName msg : String) (status : Nat)
    (body : Json) :
    (status = 401 ∨ status = 403 →
      classifyError toolName (.axiosErr msg (some ⟨status, body⟩)) =
        .ok ⟨[⟨"Sentry API permission denied for " ++ toolName
          ++ ". Check auth token validity and permissions."⟩], true⟩) ∧
    (status = 404 →
      classifyError toolName (.axiosErr msg (some ⟨status, body⟩)) =
        .ok ⟨[⟨"Sentry resource not found for " ++ toolName
          ++ ". Check IDs/slugs."⟩], true⟩) ∧
    (status ≠ 401 → status ≠ 403 → status ≠ 404 →
      classifyError toolName (.axiosErr msg (some ⟨status, body⟩)) =
        .ok ⟨[⟨"Sentry API error for " ++ toolName ++ ": " ++ msg ++ " Status: "
          ++ toString status ++ ". Response: " ++ body.stringify⟩], true⟩) := by
  refine ⟨?_, ?_, ?_⟩
  · rintro (rfl | rfl) <;> simp [classifyError]
  · rintro rfl
    simp [classifyError]
  · intro h1 h2 h3
    by_cases h4 : 400 ≤ status ∧ status < 500
    · simp [classifyError, h4, h1, h2, h3]
    · simp [classifyError, h4]

/-- Witness for C4: the three status classes at concrete statuses 401, 404
and 500. -/
theorem classify_http_status_messages_witness :
    classifyError "t" (.axiosErr "m" (some ⟨401, Json.null⟩)) =
      .ok ⟨[⟨"Sentry API permission denied for " ++ "t"
        ++ ". Check auth token validity and permissions."⟩], true⟩ ∧
    classifyError "t" (.axiosErr "m" (some ⟨404, Json.null⟩)) =
      .ok ⟨[⟨"Sentry resource not found for " ++ "t" ++ ". Check IDs/slugs."⟩],
        true⟩ ∧
    classifyError "t" (.axiosErr "m" (some ⟨500, Json.null⟩)) =
      .ok ⟨[⟨"Sentry API error for " ++ "t" ++ ": " ++ "m" ++ " Status: "
        ++ toString (500 : Nat) ++ ". Response: " ++ Json.null.stringify⟩],
        true⟩ :=
  ⟨(classify_http_status_messages "t" "m" 401 Json.null).1 (Or.inl rfl),
   (classify_http_status_messages "t" "m" 404 Json.null).2.1 rfl,
   (classify_http_status_messages "t" "m" 500 Json.null).2.2
     (by decide) (by decide) (by decide)⟩

/-- Claim C5: a protocol-level error thrown during dispatch is re-raised by
the classifier unchanged; every other thrown value becomes a `ToolResult`
with `isError = true` and a single text content item. -/
theorem classify_protocol_error_reraise (toolName : String) (e : Thrown) :
    (∀ me : McpError, e = .mcpErr me → classifyError toolName e = .error me) ∧
    ((∀ me : McpError, e ≠ .mcpErr me) →
      ∃ msg : String, classifyError toolName e = .ok ⟨[⟨msg⟩], true⟩) := by
  constructor
  · intro me h
    subst h
    rfl
  · intro hne
    cases e with
    | axiosErr msg response => exact ⟨_, rfl⟩
    | mcpErr me => exact absurd rfl (hne me)
    | jsErr msg => exact ⟨msg, rfl⟩
    | nonErrorValue => exact ⟨_, rfl⟩

/-- Witness for C5: a protocol error re-raised and a generic error converted. -/
theorem classify_protocol_error_reraise_witness :
    classifyError "t" (.mcpErr ⟨.InvalidParams, "bad"⟩) =
      .error ⟨.InvalidParams, "bad"⟩ ∧
    ∃ msg, classifyError "t" (.jsErr "oops") = .ok ⟨[⟨msg⟩], true⟩ :=
  ⟨(classify_protocol_error_reraise "t" (.mcpErr ⟨.InvalidParams, "bad"⟩)).1 _ rfl,
   (classify_protocol_error_reraise "t" (.jsErr "oops")).2
     (fun _ h => Thrown.noConfusion h)⟩

end SentryMcp
